import Mathlib

set_option autoImplicit false

namespace ArrowFdw

/-! ### File identity and modification times (struct stat)

Shallow embedding of src/next/arrow_fdw.c, the Arrow foreign-data engine
of pg-strom: metadata-cache lookup and insertion, the record-batch field
state builder, the min/max statistics binder, the Arrow-to-host type
binder, and the scan-option file-set resolver. -/

/-- Subset of struct stat used by the metadata cache: device, inode, and
the nanosecond-resolution mtime (st_mtim.tv_sec, st_mtim.tv_nsec). -/
structure FileStat where
  st_dev : Nat
  st_ino : Nat
  mtimeSec : Int
  mtimeNsec : Int
deriving DecidableEq

/-- Cache entry as seen by lookupArrowMetadataCache: the stored stat
snapshot plus an abstract payload identity standing for the cached
record-batch chain hanging off this leader entry. -/
structure MCacheEntry where
  stat_buf : FileStat
  payload : Nat
deriving DecidableEq

/-- Match condition of lookupArrowMetadataCache: same st_dev and st_ino. -/
def sameFileIdent (st : FileStat) (mc : MCacheEntry) : Bool :=
  st.st_dev == mc.stat_buf.st_dev && st.st_ino == mc.stat_buf.st_ino

/-- Validity condition of lookupArrowMetadataCache exactly as coded
(arrow_fdw.c:461-463): the current stat mtime seconds are before the
cached seconds, or the seconds agree and the current nanoseconds are not
later than the cached ones. -/
def mcacheValid (st : FileStat) (mc : MCacheEntry) : Bool :=
  st.mtimeSec < mc.stat_buf.mtimeSec ||
  (st.mtimeSec == mc.stat_buf.mtimeSec && st.mtimeNsec ≤ mc.stat_buf.mtimeNsec)

/-- The claim wording for cache validity: the stored mtime is greater than
or equal to the current file mtime, lexicographically on
(seconds, nanoseconds). -/
def storedMtimeGE (st : FileStat) (mc : MCacheEntry) : Prop :=
  st.mtimeSec < mc.stat_buf.mtimeSec ∨
  (st.mtimeSec = mc.stat_buf.mtimeSec ∧ st.mtimeNsec ≤ mc.stat_buf.mtimeNsec)

instance (st : FileStat) (mc : MCacheEntry) : Decidable (storedMtimeGE st mc) := by
  unfold storedMtimeGE; infer_instance

/-- Concrete lookup input: the current file mtime is strictly newer than
the cached one, so the cached entry is stale for it. -/
def c1Stat : FileStat := ⟨1, 2, 100, 0⟩

def c1StaleEntry : MCacheEntry := ⟨⟨1, 2, 99, 0⟩, 0⟩

/-- Outcome of one metadata-cache lookup walk.  found and notFound are
the two normal completions.  iterEscaped records what the source does on
the exclusive-stale path: the entry is deleted inside a plain
dlist_foreach (not dlist_foreach_modify), its chain node is zeroed
(arrow_fdw.c:484) and then re-linked into the free_mcaches list by
__releaseMetadataCache (arrow_fdw.c:280-281), so the loop advance to
iter.cur's next pointer follows the released node out of the hash bucket
into the free list; the bucket sentinel can never be reached from there,
and when the walk re-encounters the released entry (its stat_buf
untouched, so still matching and stale, its lru_chain zeroed) the
dlist_delete of that zeroed lru_chain dereferences NULL.  The walk never
completes normally, which iterEscaped stands for; the bucket entries
after the stale one are never examined. -/
inductive LookupResult where
  | found (mc : MCacheEntry) : LookupResult
  | notFound : LookupResult
  | iterEscaped : LookupResult
deriving DecidableEq

/-- Shallow embedding of lookupArrowMetadataCache (arrow_fdw.c:443-491)
over one hash bucket, returning the walk outcome together with the
bucket contents afterwards.  A fresh match returns immediately and
leaves the bucket unchanged (the LRU move touches only the LRU list).  A
stale match under the shared lock is left in place and the walk
continues.  A stale match under the exclusive lock is unlinked from the
LRU and the bucket and released; the dlist_foreach advance then follows
the freed node's re-linked chain pointer into the free list (see
LookupResult.iterEscaped), so the walk leaves the bucket with the
remaining entries unexamined and never reaches a return. -/
def lookupArrowMetadataCache (st : FileStat) (has_exclusive : Bool) :
    List MCacheEntry → LookupResult × List MCacheEntry
  | [] => (.notFound, [])
  | mc :: rest =>
    if sameFileIdent st mc then
      if mcacheValid st mc then
        (.found mc, mc :: rest)
      else if has_exclusive then
        (.iterEscaped, rest)
      else
        let r := lookupArrowMetadataCache st has_exclusive rest
        (r.1, mc :: r.2)
    else
      let r := lookupArrowMetadataCache st has_exclusive rest
      (r.1, mc :: r.2)

theorem mcacheValid_iff_storedMtimeGE (st : FileStat) (mc : MCacheEntry) :
    mcacheValid st mc = true ↔ storedMtimeGE st mc := by
  unfold mcacheValid storedMtimeGE
  simp [Bool.or_eq_true, Bool.and_eq_true, decide_eq_true_eq, beq_iff_eq]

theorem lookup_cons_nomatch (st : FileStat) (ex : Bool) (mc : MCacheEntry)
    (rest : List MCacheEntry) (hs : ¬sameFileIdent st mc = true) :
    lookupArrowMetadataCache st ex (mc :: rest) =
      ((lookupArrowMetadataCache st ex rest).1,
       mc :: (lookupArrowMetadataCache st ex rest).2) := by
  simp [lookupArrowMetadataCache, hs]

theorem lookup_cons_fresh (st : FileStat) (ex : Bool) (mc : MCacheEntry)
    (rest : List MCacheEntry) (hs : sameFileIdent st mc = true)
    (hv : mcacheValid st mc = true) :
    lookupArrowMetadataCache st ex (mc :: rest) = (.found mc, mc :: rest) := by
  simp [lookupArrowMetadataCache, hs, hv]

theorem lookup_cons_stale_shared (st : FileStat) (mc : MCacheEntry)
    (rest : List MCacheEntry) (hs : sameFileIdent st mc = true)
    (hv : ¬mcacheValid st mc = true) :
    lookupArrowMetadataCache st false (mc :: rest) =
      ((lookupArrowMetadataCache st false rest).1,
       mc :: (lookupArrowMetadataCache st false rest).2) := by
  simp [lookupArrowMetadataCache, hs, hv]

theorem lookup_cons_stale_exclusive (st : FileStat) (mc : MCacheEntry)
    (rest : List MCacheEntry) (hs : sameFileIdent st mc = true)
    (hv : ¬mcacheValid st mc = true) :
    lookupArrowMetadataCache st true (mc :: rest) = (.iterEscaped, rest) := by
  simp [lookupArrowMetadataCache, hs, hv]

theorem lookup_found_imp (st : FileStat) (ex : Bool) (bucket : List MCacheEntry)
    (mc : MCacheEntry)
    (h : (lookupArrowMetadataCache st ex bucket).1 = .found mc) :
    sameFileIdent st mc = true ∧ mcacheValid st mc = true := by
  induction bucket with
  | nil => simp [lookupArrowMetadataCache] at h
  | cons e rest ih =>
    by_cases hs : sameFileIdent st e = true
    · by_cases hv : mcacheValid st e = true
      · rw [lookup_cons_fresh st ex e rest hs hv] at h
        simp at h; subst h; exact ⟨hs, hv⟩
      · cases ex with
        | true =>
          rw [lookup_cons_stale_exclusive st e rest hs hv] at h
          simp at h
        | false =>
          rw [lookup_cons_stale_shared st e rest hs hv] at h
          exact ih h
    · rw [lookup_cons_nomatch st ex e rest hs] at h
      exact ih h

theorem lookup_shared_notFound_iff (st : FileStat) (bucket : List MCacheEntry) :
    ((lookupArrowMetadataCache st false bucket).1 = .notFound ↔
      ¬ ∃ mc ∈ bucket, sameFileIdent st mc = true ∧ mcacheValid st mc = true) := by
  induction bucket with
  | nil => simp [lookupArrowMetadataCache]
  | cons e rest ih =>
    by_cases hs : sameFileIdent st e = true
    · by_cases hv : mcacheValid st e = true
      · rw [lookup_cons_fresh st false e rest hs hv]
        simp only [reduceCtorEq, false_iff, not_not]
        exact ⟨e, List.mem_cons_self _ _, hs, hv⟩
      · rw [lookup_cons_stale_shared st e rest hs hv]
        simp only []
        rw [ih]
        constructor
        · rintro hno ⟨x, hx, h1, h2⟩
          rcases List.mem_cons.mp hx with rfl | hx2
          · exact absurd h2 hv
          · exact hno ⟨x, hx2, h1, h2⟩
        · intro hno
          rintro ⟨x, hx, h1, h2⟩
          exact hno ⟨x, List.mem_cons_of_mem _ hx, h1, h2⟩
    · rw [lookup_cons_nomatch st false e rest hs]
      simp only []
      rw [ih]
      constructor
      · rintro hno ⟨x, hx, h1, h2⟩
        rcases List.mem_cons.mp hx with rfl | hx2
        · exact absurd h1 hs
        · exact hno ⟨x, hx2, h1, h2⟩
      · intro hno
        rintro ⟨x, hx, h1, h2⟩
        exact hno ⟨x, List.mem_cons_of_mem _ hx, h1, h2⟩

theorem lookup_shared_keeps_bucket (st : FileStat) (bucket : List MCacheEntry) :
    (lookupArrowMetadataCache st false bucket).2 = bucket := by
  induction bucket with
  | nil => simp [lookupArrowMetadataCache]
  | cons e rest ih =>
    by_cases hs : sameFileIdent st e = true
    · by_cases hv : mcacheValid st e = true
      · rw [lookup_cons_fresh st false e rest hs hv]
      · rw [lookup_cons_stale_shared st e rest hs hv]
        simp only []
        rw [ih]
    · rw [lookup_cons_nomatch st false e rest hs]
      simp only []
      rw [ih]

/-- C1 (code bug): the validity comparison is exactly the claimed
stored-mtime greater-than-or-equal test, a returned entry always
satisfies it, and a shared-lock lookup leaves the bucket in place and
reports not-found exactly when no fresh match exists; but on the
exclusive-stale path the source releases the entry inside a plain
dlist_foreach whose advance then follows the freed node's chain pointer
into the free_mcaches list, so the walk escapes the bucket (ending in a
dlist_delete of the re-encountered entry's zeroed lru_chain) instead of
returning not-found — evaluated here on an exclusive lookup over a
bucket holding one matching stale entry. -/
theorem C1_lookup_mtime_validity :
    (∀ (st : FileStat) (mc : MCacheEntry),
      mcacheValid st mc = true ↔ storedMtimeGE st mc)
    ∧ (∀ (st : FileStat) (ex : Bool) (bucket : List MCacheEntry) (mc : MCacheEntry),
        (lookupArrowMetadataCache st ex bucket).1 = .found mc →
        sameFileIdent st mc = true ∧ storedMtimeGE st mc)
    ∧ (∀ (st : FileStat) (bucket : List MCacheEntry),
        ((lookupArrowMetadataCache st false bucket).1 = .notFound ↔
          ¬ ∃ mc ∈ bucket, sameFileIdent st mc = true ∧ mcacheValid st mc = true)
        ∧ (lookupArrowMetadataCache st false bucket).2 = bucket)
    ∧ sameFileIdent c1Stat c1StaleEntry = true
    ∧ mcacheValid c1Stat c1StaleEntry = false
    ∧ lookupArrowMetadataCache c1Stat true [c1StaleEntry] =
        (LookupResult.iterEscaped, [])
    ∧ LookupResult.iterEscaped ≠ LookupResult.notFound := by
  refine ⟨mcacheValid_iff_storedMtimeGE, ?_, ?_, by decide, by decide, by decide, by decide⟩
  · intro st ex bucket mc h
    have h2 := lookup_found_imp st ex bucket mc h
    exact ⟨h2.1, (mcacheValid_iff_storedMtimeGE st mc).mp h2.2⟩
  · intro st bucket
    exact ⟨lookup_shared_notFound_iff st bucket, lookup_shared_keeps_bucket st bucket⟩

/-- Witness for C1: a shared-lock lookup over the one-stale-entry bucket
leaves the bucket unchanged (and, per the theorem, reports not-found). -/
theorem C1_lookup_mtime_validity_witness :
    (lookupArrowMetadataCache c1Stat false [c1StaleEntry]).2 = [c1StaleEntry] :=
  (C1_lookup_mtime_validity.2.2.1 c1Stat [c1StaleEntry]).2

/-! ### Metadata-cache insertion (__allocMetadataCache and
__buildArrowMetadataCacheNoLock)

The slab allocator pops a free arrowMetadataCache item and is supposed to
zero its fields from chain up to (but excluding) magic.  The source,
however, writes memset of the address of the local pointer variable
(arrow_fdw.c:416: memset of &mcache where the sibling allocator at :375
correctly clears from &fcache->chain), so the popped item keeps whatever
chain, lru_chain, next and stat values its previous use left behind.  The
embedding records that residue in the next field of a slot. -/

/-- Contents of the next pointer of a cached batch entry.  null is a NULL
pointer, stale is a dangling value left over from the previous occupant of
the slab slot, toSuccessor marks the assignment mcache_prev rarr next made
by __buildArrowMetadataCacheNoLock while chaining batch entries. -/
inductive NextPtr where
  | null : NextPtr
  | stale (v : Nat) : NextPtr
  | toSuccessor : NextPtr
deriving DecidableEq

/-- One arrowMetadataCache slab item, with the fields the insertion path
touches: the residual or assigned next pointer, the magic state, and the
record-batch index copied from the RecordBatchState. -/
structure MCSlot where
  next : NextPtr
  magicActive : Bool
  rb_index : Nat
deriving DecidableEq

/-- Shallow embedding of __allocMetadataCache (arrow_fdw.c:381-420): pops
the head of the free list and flips its magic to ACTIVE.  Because the
memset at arrow_fdw.c:416 clears the local pointer variable instead of the
entry, none of the fields between chain and magic are reset, so the
residual next value survives.  The block-carving and reclaim paths are
summarised by allocation failure on an empty free list. -/
def allocMetadataCache : List MCSlot → Option (MCSlot × List MCSlot)
  | [] => none
  | s :: rest => some ({ s with magicActive := true }, rest)

/-- Shallow embedding of the chain-building loop of
__buildArrowMetadataCacheNoLock (arrow_fdw.c:1538-1574): one entry is
allocated per record batch (identified here by its rb_index), the previous
entry gets next assigned to its successor, and the final entry never has
next assigned, keeping whatever the allocator left there.  On allocation
failure the partial chain is released and nothing is published (none). -/
def buildMetadataCacheChain : List Nat → List MCSlot →
    Option (List MCSlot × List MCSlot)
  | [], free => some ([], free)
  | b :: bs, free =>
    match allocMetadataCache free with
    | none => none
    | some (s, free1) =>
      match buildMetadataCacheChain bs free1 with
      | none => none
      | some (tail, free2) =>
        let s2 := { s with rb_index := b,
                           next := if bs.isEmpty then s.next else NextPtr.toSuccessor }
        some (s2 :: tail, free2)

/-- Free slot whose previous occupant (a released leader that had a
follower) left a dangling pointer in its next field; __releaseMetadataCache
never clears next before pushing the item back on the free list. -/
def staleFreeSlot : MCSlot := { next := NextPtr.stale 5, magicActive := false, rb_index := 0 }

/-- Free slot whose residual next happens to be NULL. -/
def cleanFreeSlot : MCSlot := { next := NextPtr.null, magicActive := false, rb_index := 0 }

/-- C2 (code bug): inserting a two-batch file builds a leader whose next
is chained to the follower in batch order, but the last entry's next is
whatever stale value the free-list slot carried, not NULL, because the
memset in __allocMetadataCache zeroes the local pointer variable instead
of the entry.  The claim's final-next-is-null property fails on this
concrete input. -/
theorem C2_insert_stale_next_bug :
    buildMetadataCacheChain [7, 8] [cleanFreeSlot, staleFreeSlot] =
      some ([{ next := NextPtr.toSuccessor, magicActive := true, rb_index := 7 },
             { next := NextPtr.stale 5, magicActive := true, rb_index := 8 }], [])
    ∧ (buildMetadataCacheChain [7, 8] [cleanFreeSlot, staleFreeSlot]).map
        (fun r => r.1.getLast?.map MCSlot.next) = some (some (NextPtr.stale 5))
    ∧ NextPtr.stale 5 ≠ NextPtr.null := by
  refine ⟨rfl, rfl, ?_⟩
  decide

/-! ### Arrow type options and per-field scalar attributes -/

/-- Tags of ArrowTypeOptions (the ArrowType__* enum values the Arrow FDW
binder produces). -/
inductive ArrowTypeTag where
  | Int | FloatingPoint | Bool | Decimal | Date | Time | Timestamp
  | Interval | FixedSizeBinary | Utf8 | Binary | LargeUtf8 | LargeBinary
  | List | LargeList | Struct
deriving DecidableEq

/-- ArrowTypeOptions: the tag, the per-element unit size (negative meaning
the values buffer is a bitmap), and the tag-specific union members, here
flattened into one record with zero defaults for the unused ones. -/
structure ArrowTypeOptions where
  tag : ArrowTypeTag
  unitsz : Int
  integer_bitWidth : Nat := 0
  integer_is_signed : Bool := false
  floating_point_precision : Nat := 0
  decimal_precision : Int := 0
  decimal_scale : Int := 0
  decimal_bitWidth : Nat := 0
  date_unit : Nat := 0
  time_unit : Nat := 0
  timestamp_unit : Nat := 0
  interval_unit : Nat := 0
  fixed_size_binary_byteWidth : Int := 0
deriving DecidableEq

/-- The scalar attributes of one RecordBatchFieldState, shared verbatim
with arrowMetadataFieldCache (the common fields with cache block of
arrow_fdw.c:22-37 and :85-102).  SQLstat__datum is modelled as Int. -/
structure FieldScalars where
  atttypid : Nat
  atttypmod : Int
  attopts : ArrowTypeOptions
  nitems : Int
  null_count : Int
  nullmap_offset : Nat
  nullmap_length : Nat
  values_offset : Nat
  values_length : Nat
  extra_offset : Nat
  extra_length : Nat
  stat_min : Int
  stat_max : Int
  stat_isnull : Bool
  num_children : Nat
deriving DecidableEq

/-! ### RecordBatchFieldState trees and their cached form (C3) -/

mutual
/-- RecordBatchFieldState: the scalar attributes plus the ordered children
array (arrow_fdw.c:20-41). -/
inductive RecordBatchFieldState where
  | mk (scal : FieldScalars) (children : RBFieldList)
deriving DecidableEq
/-- Ordered list of child RecordBatchFieldState values. -/
inductive RBFieldList where
  | nil
  | cons (f : RecordBatchFieldState) (fs : RBFieldList)
deriving DecidableEq
end

mutual
/-- arrowMetadataFieldCache: the same scalar attributes, children held as
an intrusive dlist in slab memory (arrow_fdw.c:81-105). -/
inductive MetadataFieldCache where
  | mk (scal : FieldScalars) (children : FieldCacheList)
deriving DecidableEq
/-- Ordered children list of a MetadataFieldCache (the dlist). -/
inductive FieldCacheList where
  | nil
  | cons (f : MetadataFieldCache) (fs : FieldCacheList)
deriving DecidableEq
end

def rbFieldListLength : RBFieldList → Nat
  | .nil => 0
  | .cons _ fs => rbFieldListLength fs + 1

mutual
/-- Shallow embedding of __buildArrowMetadataFieldCache
(arrow_fdw.c:1484-1521): copies every scalar attribute of the field state
into a freshly allocated field-cache entry and pushes one child cache
entry per child, in order, onto the children dlist.  The allocation-
failure path (which releases the partial entry and caches nothing) is
not taken here; the claim presupposes the cache entry was built. -/
def __buildArrowMetadataFieldCache : RecordBatchFieldState → MetadataFieldCache
  | .mk scal children => .mk scal (__buildArrowMetadataFieldCacheList children)
/-- Children loop of __buildArrowMetadataFieldCache (arrow_fdw.c:1508-1519). -/
def __buildArrowMetadataFieldCacheList : RBFieldList → FieldCacheList
  | .nil => .nil
  | .cons f fs =>
    .cons (__buildArrowMetadataFieldCache f) (__buildArrowMetadataFieldCacheList fs)
end

mutual
/-- Shallow embedding of __buildRecordBatchFieldStateByCache
(arrow_fdw.c:880-918): copies every scalar attribute back out of the
field-cache entry; when num_children is positive it rebuilds the children
array by walking the children dlist in order, otherwise the children stay
empty (the palloc0 default). -/
def __buildRecordBatchFieldStateByCache : MetadataFieldCache → RecordBatchFieldState
  | .mk scal children =>
    .mk scal (if 0 < scal.num_children
              then __buildRecordBatchFieldStateByCacheList children
              else .nil)
/-- Children walk of __buildRecordBatchFieldStateByCache (arrow_fdw.c:906-911). -/
def __buildRecordBatchFieldStateByCacheList : FieldCacheList → RBFieldList
  | .nil => .nil
  | .cons f fs =>
    .cons (__buildRecordBatchFieldStateByCache f) (__buildRecordBatchFieldStateByCacheList fs)
end

mutual
/-- Well-formedness maintained by the raw-file builder: num_children
always equals the length of the children array (both are set together in
__buildRecordBatchFieldState, arrow_fdw.c:1352-1384). -/
def fieldStateWF : RecordBatchFieldState → Bool
  | .mk scal children =>
    scal.num_children == rbFieldListLength children && fieldStateListWF children
/-- List form of fieldStateWF. -/
def fieldStateListWF : RBFieldList → Bool
  | .nil => true
  | .cons f fs => fieldStateWF f && fieldStateListWF fs
end

theorem rbFieldListLength_zero {fs : RBFieldList} (h : rbFieldListLength fs = 0) :
    fs = .nil := by
  cases fs with
  | nil => rfl
  | cons f fs => simp [rbFieldListLength] at h

mutual
theorem cacheRoundTripF : ∀ (f : RecordBatchFieldState), fieldStateWF f = true →
    __buildRecordBatchFieldStateByCache (__buildArrowMetadataFieldCache f) = f
  | .mk scal children, h => by
    have h2 := h
    unfold fieldStateWF at h2
    rw [Bool.and_eq_true] at h2
    have hlen : scal.num_children = rbFieldListLength children := eq_of_beq h2.1
    unfold __buildArrowMetadataFieldCache __buildRecordBatchFieldStateByCache
    by_cases hpos : 0 < scal.num_children
    · rw [if_pos hpos, cacheRoundTripL children h2.2]
    · rw [if_neg hpos]
      have : rbFieldListLength children = 0 := by omega
      rw [rbFieldListLength_zero this]
theorem cacheRoundTripL : ∀ (fs : RBFieldList), fieldStateListWF fs = true →
    __buildRecordBatchFieldStateByCacheList (__buildArrowMetadataFieldCacheList fs) = fs
  | .nil, _ => rfl
  | .cons f fs, h => by
    have h2 := h
    unfold fieldStateListWF at h2
    rw [Bool.and_eq_true] at h2
    unfold __buildArrowMetadataFieldCacheList __buildRecordBatchFieldStateByCacheList
    rw [cacheRoundTripF f h2.1, cacheRoundTripL fs h2.2]
end

/-- C3: building a RecordBatchFieldState tree via a metadata-cache entry
that was itself built from the directly-constructed tree reproduces that
tree exactly: every scalar attribute (type id and modifier, type options,
row and null counts, the three offset/length pairs, the min/max/isnull
statistics) and the number, order and contents of the children coincide. -/
theorem C3_field_state_cache_refinement (f : RecordBatchFieldState)
    (h : fieldStateWF f = true) :
    __buildRecordBatchFieldStateByCache (__buildArrowMetadataFieldCache f) = f :=
  cacheRoundTripF f h

/-- Concrete two-level field state (a List field with one child) used by
the C3 witness. -/
def c3ChildScalars : FieldScalars :=
  { atttypid := 23, atttypmod := -1,
    attopts := { tag := ArrowTypeTag.Int, unitsz := 4 },
    nitems := 10, null_count := 0,
    nullmap_offset := 0, nullmap_length := 0,
    values_offset := 64, values_length := 40,
    extra_offset := 0, extra_length := 0,
    stat_min := 1, stat_max := 9, stat_isnull := false,
    num_children := 0 }

def c3RootScalars : FieldScalars :=
  { atttypid := 1007, atttypmod := -1,
    attopts := { tag := ArrowTypeTag.List, unitsz := 4 },
    nitems := 10, null_count := 0,
    nullmap_offset := 0, nullmap_length := 0,
    values_offset := 64, values_length := 44,
    extra_offset := 0, extra_length := 0,
    stat_min := 0, stat_max := 0, stat_isnull := true,
    num_children := 1 }

def c3Tree : RecordBatchFieldState :=
  .mk c3RootScalars (.cons (.mk c3ChildScalars .nil) .nil)

/-- Witness for C3: the round trip through the metadata-cache copy is the
identity on a concrete two-level tree. -/
theorem C3_field_state_cache_refinement_witness :
    __buildRecordBatchFieldStateByCache (__buildArrowMetadataFieldCache c3Tree) = c3Tree :=
  C3_field_state_cache_refinement c3Tree (by decide)

/-! ### RecordBatch buffer assignment (C4) -/

/-- Error kinds raised by the embedded Arrow FDW routines (each elog ERROR
site becomes one constructor application carrying the message). -/
inductive FdwError where
  | RecordBatchCorrupt (msg : String)
  | UnsupportedType (msg : String)
  | UnsupportedFeature (msg : String)
  | NoCompatibleComposite
  | OptionError (msg : String)
deriving DecidableEq

def exceptIsOk {α : Type} : Except FdwError α → Bool
  | .ok _ => true
  | .error _ => false

/-- MAXALIGN of PostgreSQL: round up to the maximum primitive alignment
boundary (8 bytes). -/
def MAXALIGN (x : Nat) : Nat := ((x + 7) / 8) * 8

/-- BITMAPLEN of PostgreSQL: bytes needed for a bitmap of n bits. -/
def BITMAPLEN (n : Nat) : Nat := (n + 7) / 8

/-- One ArrowBuffer descriptor: byte offset and length inside the record
batch body. -/
structure ArrowBufferD where
  offset : Nat
  length : Nat
deriving DecidableEq

/-- The three buffer regions recorded into a RecordBatchFieldState. -/
structure FieldBuffers where
  nullmap_offset : Nat := 0
  nullmap_length : Nat := 0
  values_offset : Nat := 0
  values_length : Nat := 0
  extra_offset : Nat := 0
  extra_length : Nat := 0
deriving DecidableEq

/-- The least_length computation of __assignRecordBatchFieldStateBuffer
(arrow_fdw.c:991-998): the bitmap length when unitsz is negative, unit
size times row count for fixed-width values, and one extra slot for
variable-length offset arrays. -/
def valuesLeastLength (unitsz : Int) (has_extra : Bool) (nitems : Nat) : Nat :=
  if unitsz < 0 then BITMAPLEN nitems
  else if !has_extra then unitsz.toNat * nitems
  else unitsz.toNat * (nitems + 1)

/-- Nullmap block of __assignRecordBatchFieldStateBuffer
(arrow_fdw.c:976-987): the first buffer is consumed; when null_count is
positive its offset and length are recorded and validated, otherwise it
is skipped unchecked. -/
def assignNullmapStep (nitems : Nat) (null_count : Int) (b0 : ArrowBufferD) :
    Except FdwError FieldBuffers :=
  if 0 < null_count then
    if b0.length < BITMAPLEN nitems then
      .error (.RecordBatchCorrupt "nullmap length is smaller than expected")
    else if b0.offset ≠ MAXALIGN b0.offset then
      .error (.RecordBatchCorrupt "nullmap is not aligned well")
    else .ok { nullmap_offset := b0.offset, nullmap_length := b0.length }
  else .ok {}

/-- Values block of __assignRecordBatchFieldStateBuffer
(arrow_fdw.c:989-1009): the values buffer is recorded, its length checked
against MAXALIGN of least_length and its offset checked for max
alignment. -/
def assignValuesStep (nitems : Nat) (unitsz : Int) (has_extra : Bool)
    (fb : FieldBuffers) (b1 : ArrowBufferD) : Except FdwError FieldBuffers :=
  if b1.length < MAXALIGN (valuesLeastLength unitsz has_extra nitems) then
    .error (.RecordBatchCorrupt "values array is smaller than expected")
  else if b1.offset ≠ MAXALIGN b1.offset then
    .error (.RecordBatchCorrupt "values array is not aligned well")
  else .ok { fb with values_offset := b1.offset, values_length := b1.length }

/-- Extra block of __assignRecordBatchFieldStateBuffer
(arrow_fdw.c:1011-1021): the extra buffer is recorded and only its offset
alignment is checked. -/
def assignExtraStep (fb : FieldBuffers) (b2 : ArrowBufferD) :
    Except FdwError FieldBuffers :=
  if b2.offset ≠ MAXALIGN b2.offset then
    .error (.RecordBatchCorrupt "extra buffer is not aligned well")
  else .ok { fb with extra_offset := b2.offset, extra_length := b2.length }

/-- Shallow embedding of __assignRecordBatchFieldStateBuffer
(arrow_fdw.c:968-1022), composing its three blocks and consuming buffers
from the cursor: the nullmap buffer always, the values buffer when unitsz
is nonzero, the extra buffer when has_extra.  A missing buffer is the
elog at :978, :1002 or :1016; all violations become error results. -/
def __assignRecordBatchFieldStateBuffer (nitems : Nat) (null_count : Int)
    (unitsz : Int) (has_extra : Bool) (buffers : List ArrowBufferD) :
    Except FdwError (FieldBuffers × List ArrowBufferD) :=
  match buffers with
  | [] => .error (.RecordBatchCorrupt "RecordBatch has less buffers than expected")
  | b0 :: rest0 =>
    match assignNullmapStep nitems null_count b0 with
    | .error e => .error e
    | .ok fb =>
      if unitsz ≠ 0 then
        match rest0 with
        | [] => .error (.RecordBatchCorrupt "RecordBatch has less buffers than expected")
        | b1 :: rest1 =>
          match assignValuesStep nitems unitsz has_extra fb b1 with
          | .error e => .error e
          | .ok fb1 =>
            if has_extra then
              match rest1 with
              | [] => .error (.RecordBatchCorrupt "RecordBatch has less buffers than expected")
              | b2 :: rest2 =>
                match assignExtraStep fb1 b2 with
                | .error e => .error e
                | .ok fb2 => .ok (fb2, rest2)
            else .ok (fb1, rest1)
      else
        if has_extra then
          match rest0 with
          | [] => .error (.RecordBatchCorrupt "RecordBatch has less buffers than expected")
          | b2 :: rest2 =>
            match assignExtraStep fb b2 with
            | .error e => .error e
            | .ok fb2 => .ok (fb2, rest2)
        else .ok (fb, rest0)

/-- The rejection condition for the values buffer exactly as the claim
words it: length below unit_size times row_count (with the plus-one slot
for variable-length offsets and the bitmap length for bitmap values), or
a misaligned offset.  No MAXALIGN roundup on the length bound. -/
def claimValuesRejected (unitsz : Int) (has_extra : Bool) (nitems : Nat)
    (b : ArrowBufferD) : Bool :=
  b.length < valuesLeastLength unitsz has_extra nitems || b.offset != MAXALIGN b.offset

/-- C4 counterexample: a one-row int8-like field (unit size 1) with a
values buffer of length 1 at offset 0 satisfies the claim's acceptance
condition (1 is not below unit_size times row_count = 1 and the offset is
aligned), yet the source rejects it, because arrow_fdw.c:1005 compares the
length against MAXALIGN(least_length) = 8. -/
theorem C4_counterexample :
    claimValuesRejected 1 false 1 { offset := 0, length := 1 } = false
    ∧ __assignRecordBatchFieldStateBuffer 1 0 1 false
        [{ offset := 0, length := 0 }, { offset := 0, length := 1 }] =
      .error (.RecordBatchCorrupt "values array is smaller than expected") :=
  ⟨by decide, rfl⟩

/-- Nullmap step of the claim context: the nullmap buffer passes its own
checks (trivially so when null_count is not positive). -/
def nullmapStepOk (null_count : Int) (nitems : Nat) (b : ArrowBufferD) : Bool :=
  !(0 < null_count : Bool) ||
    (BITMAPLEN nitems ≤ b.length && b.offset == MAXALIGN b.offset)

/-- Extra step of the claim context: when the field has an extra buffer,
one more buffer is available and its offset is aligned. -/
def extraStepOk (has_extra : Bool) (rest : List ArrowBufferD) : Bool :=
  !has_extra ||
    (match rest with
     | b2 :: _ => b2.offset == MAXALIGN b2.offset
     | [] => false)

/-- C4 as amended: for a field with a values buffer (unitsz nonzero, the
buffer present, the nullmap and extra checks passing), the builder accepts
exactly when the values length is at least MAXALIGN of unit_size times
row_count (plus-one slot for variable-length offsets, bitmap length for
bitmap values) and the offset is max-aligned; otherwise it fails with
RecordBatchCorrupt. -/
theorem C4_values_buffer_check (nitems : Nat) (null_count : Int) (unitsz : Int)
    (has_extra : Bool) (b0 b1 : ArrowBufferD) (rest : List ArrowBufferD)
    (hunit : unitsz ≠ 0)
    (hnull : nullmapStepOk null_count nitems b0 = true)
    (hextra : extraStepOk has_extra rest = true) :
    exceptIsOk (__assignRecordBatchFieldStateBuffer nitems null_count unitsz has_extra
        (b0 :: b1 :: rest)) = true ↔
      (MAXALIGN (valuesLeastLength unitsz has_extra nitems) ≤ b1.length ∧
       b1.offset = MAXALIGN b1.offset) := by
  obtain ⟨fb, hfb⟩ : ∃ fb, assignNullmapStep nitems null_count b0 = .ok fb := by
    unfold nullmapStepOk at hnull
    unfold assignNullmapStep
    by_cases hnc : 0 < null_count
    · simp [hnc] at hnull
      rw [if_pos hnc, if_neg (Nat.not_lt.mpr hnull.1), if_neg (not_not_intro hnull.2)]
      exact ⟨_, rfl⟩
    · rw [if_neg hnc]; exact ⟨_, rfl⟩
  unfold __assignRecordBatchFieldStateBuffer
  dsimp only
  rw [hfb]
  dsimp only
  simp only [if_pos hunit]
  by_cases hlen : b1.length < MAXALIGN (valuesLeastLength unitsz has_extra nitems)
  · rw [show assignValuesStep nitems unitsz has_extra fb b1 =
        .error (.RecordBatchCorrupt "values array is smaller than expected") from
        by unfold assignValuesStep; rw [if_pos hlen]]
    simp only [exceptIsOk]
    constructor
    · intro h; exact absurd h (by simp)
    · intro h; omega
  · by_cases hoff : b1.offset = MAXALIGN b1.offset
    · rw [show assignValuesStep nitems unitsz has_extra fb b1 =
          .ok { fb with values_offset := b1.offset, values_length := b1.length } from
          by unfold assignValuesStep; rw [if_neg hlen, if_neg (not_not_intro hoff)]]
      dsimp only
      cases has_extra with
      | false =>
        rw [if_neg (by simp)]
        simp only [exceptIsOk]
        constructor
        · intro _; exact ⟨Nat.not_lt.mp hlen, hoff⟩
        · intro _; trivial
      | true =>
        obtain ⟨b2, rest2, hrest, hb2⟩ :
            ∃ b2 rest2, rest = b2 :: rest2 ∧ b2.offset = MAXALIGN b2.offset := by
          unfold extraStepOk at hextra
          cases rest with
          | nil => simp at hextra
          | cons b2 rest2 =>
            simp only [Bool.not_true, Bool.false_or, beq_iff_eq] at hextra
            exact ⟨b2, rest2, rfl, hextra⟩
        subst hrest
        rw [if_pos rfl]
        dsimp only
        rw [show assignExtraStep
              { fb with values_offset := b1.offset, values_length := b1.length } b2 =
            .ok { fb with values_offset := b1.offset, values_length := b1.length,
                          extra_offset := b2.offset, extra_length := b2.length } from
            by unfold assignExtraStep; rw [if_neg (not_not_intro hb2)]]
        simp only [exceptIsOk]
        constructor
        · intro _; exact ⟨Nat.not_lt.mp hlen, hoff⟩
        · intro _; trivial
    · rw [show assignValuesStep nitems unitsz has_extra fb b1 =
          .error (.RecordBatchCorrupt "values array is not aligned well") from
          by unfold assignValuesStep; rw [if_neg hlen, if_pos hoff]]
      simp only [exceptIsOk]
      constructor
      · intro h; exact absurd h (by simp)
      · intro h; exact absurd h.2 hoff

/-- Witness for the amended C4: a one-row unit-size-1 field whose values
buffer has the MAXALIGN-rounded length 8 at offset 0 is accepted. -/
theorem C4_values_buffer_check_witness :
    exceptIsOk (__assignRecordBatchFieldStateBuffer 1 0 1 false
        [{ offset := 0, length := 0 }, { offset := 0, length := 8 }]) = true :=
  (C4_values_buffer_check 1 0 1 false { offset := 0, length := 0 }
      { offset := 0, length := 8 } [] (by decide) (by decide) (by decide)).mpr
    (by decide)

/-! ### Arrow field types and min/max statistics parsing (C5) -/

/-- Arrow type of one field, carrying the sub-selector values the Arrow
FDW inspects (bit width, precision, unit, timezone, byte width). -/
inductive ArrowTypeNode where
  | IntT (bitWidth : Nat) (is_signed : Bool)
  | FloatingPoint (precision : Nat)
  | BoolT
  | Decimal (precision : Int) (scale : Int) (bitWidth : Nat)
  | Date (unit : Nat)
  | Time (unit : Nat)
  | Timestamp (unit : Nat) (timezone : Bool)
  | Interval (unit : Nat)
  | FixedSizeBinary (byteWidth : Int)
  | Utf8
  | LargeUtf8
  | Binary
  | LargeBinary
  | ListT
  | LargeListT
  | Struct
deriving DecidableEq

def ArrowDateUnit__Day : Nat := 0
def ArrowDateUnit__MilliSecond : Nat := 1
def ArrowTimeUnit__Second : Nat := 0
def ArrowTimeUnit__MilliSecond : Nat := 1
def ArrowTimeUnit__MicroSecond : Nat := 2
def ArrowTimeUnit__NanoSecond : Nat := 3
def ArrowPrecision__Half : Nat := 0
def ArrowPrecision__Single : Nat := 1
def ArrowPrecision__Double : Nat := 2
def ArrowIntervalUnit__Year_Month : Nat := 0
def ArrowIntervalUnit__Day_Time : Nat := 1

/-- The unitsz switch of __parseArrowFieldStatsBinary (arrow_fdw.c:592-680):
some gives the per-slot width of the statistics arrays, none encodes the
return-false paths (unsupported bit width, precision or unit, and the
default case for every other tag). -/
def statsUnitsz : ArrowTypeNode → Option Int
  | .IntT bw _ =>
    if bw = 8 then some 1
    else if bw = 16 then some 2
    else if bw = 32 then some 4
    else if bw = 64 then some 8
    else none
  | .FloatingPoint p =>
    if p = ArrowPrecision__Half then some 2
    else if p = ArrowPrecision__Single then some 4
    else if p = ArrowPrecision__Double then some 8
    else none
  | .Decimal _ _ _ => some 16
  | .Date u =>
    if u = ArrowDateUnit__Day then some 4
    else if u = ArrowDateUnit__MilliSecond then some 8
    else none
  | .Time u =>
    if u = ArrowTimeUnit__Second ∨ u = ArrowTimeUnit__MilliSecond then some 4
    else if u = ArrowTimeUnit__MicroSecond ∨ u = ArrowTimeUnit__NanoSecond then some 8
    else none
  | .Timestamp u _ =>
    if u = ArrowTimeUnit__Second ∨ u = ArrowTimeUnit__MilliSecond ∨
       u = ArrowTimeUnit__MicroSecond ∨ u = ArrowTimeUnit__NanoSecond then some 8
    else none
  | _ => none

/-- Helper __trim (defined in the repository outside src/), modelled as
stripping leading and trailing spaces. -/
def __trim (s : List Char) : List Char :=
  ((s.dropWhile (fun c => c = ' ')).reverse.dropWhile (fun c => c = ' ')).reverse

/-- Shallow embedding of __atoi128 (arrow_fdw.c:547-573): an optional
minus sign, then decimal digits; a non-digit remainder sets the shared
isnull flag, as does a minus sign on a zero value.  The int128 wraparound
is not modelled (no claim depends on values of 39 or more digits). -/
def __atoi128 (tok : List Char) (isnull : Bool) : Int × Bool :=
  let p := match tok with
    | '-' :: rest => (true, rest)
    | _ => (false, tok)
  let digits := p.2.takeWhile Char.isDigit
  let rest := p.2.dropWhile Char.isDigit
  let ival : Int := digits.foldl (fun a c => 10 * a + ((c.toNat : Int) - 48)) 0
  let isnull1 := if rest ≠ [] then true else isnull
  if p.1 then
    (-ival, if ival = 0 then true else isnull1)
  else
    (ival, isnull1)

/-- Token sequence produced by the correctly-continued strtok_r loop of
__parseArrowFieldStatsBinary (arrow_fdw.c:691-695): the maximal nonempty
comma-free runs of the buffer. -/
def strtokTokens (s : List Char) : List (List Char) :=
  (s.splitOn ',').filter (fun t => t ≠ [])

/-- Per-slot record of the parsing loop: the shared isnull flag and the
min and max values copied into the arrays (zero when the slot is null,
matching palloc0). -/
def statsParseLoop : List (List Char) → List (List Char) → Nat →
    List (Bool × Int × Int) × List (List Char) × List (List Char)
  | t1 :: r1, t2 :: r2, Nat.succ k =>
    let m := __atoi128 (__trim t1) false
    let x := __atoi128 (__trim t2) m.2
    let rec1 := statsParseLoop r1 r2 k
    ((if x.2 then (true, 0, 0) else (false, m.1, x.1)) :: rec1.1, rec1.2)
  | ts1, ts2, _ => ([], ts1, ts2)

/-- The parsed form of one field's statistics hint: the unit size and one
slot per record batch. -/
structure ParsedStats where
  unitsz : Int
  slots : List (Bool × Int × Int)
deriving DecidableEq

/-- Shallow embedding of __parseArrowFieldStatsBinary
(arrow_fdw.c:575-723): determine the unit size from the field type (none
is the return-false path), run the lockstep token loop bounded by nrooms,
and keep the arrays only when the sanity check at :710 passes, that is
both token cursors are exhausted and exactly nrooms slots were filled. -/
def __parseArrowFieldStatsBinary (ty : ArrowTypeNode) (nrooms : Nat)
    (min_tokens max_tokens : List Char) : Option ParsedStats :=
  match statsUnitsz ty with
  | none => none
  | some unitsz =>
    let r := statsParseLoop (strtokTokens min_tokens) (strtokTokens max_tokens) nrooms
    if r.2.1 = [] ∧ r.2.2 = [] ∧ r.1.length = nrooms then
      some { unitsz := unitsz, slots := r.1 }
    else none

/-- Key scan of __buildArrowFieldStatsBinary (arrow_fdw.c:735-743); a
later duplicate key overwrites an earlier one. -/
def metaFindLast (meta : List (String × List Char)) (key : String) : Option (List Char) :=
  meta.foldl (fun acc kv => if kv.1 = key then some kv.2 else acc) none

/-- Shallow embedding of __buildArrowFieldStatsBinary for one field
(arrow_fdw.c:725-769): statistics are attempted only when both the
min_values and max_values keys are present, and a failed parse clears
everything back to the no-statistics state (the children recursion is a
separate instance of the same function per child field). -/
def __buildArrowFieldStatsBinary (ty : ArrowTypeNode) (nrooms : Nat)
    (meta : List (String × List Char)) : Option ParsedStats :=
  match metaFindLast meta "min_values", metaFindLast meta "max_values" with
  | some mt, some xt => __parseArrowFieldStatsBinary ty nrooms mt xt
  | _, _ => none

/-- Shallow embedding of __applyArrowFieldStatsBinary for one field and
one batch (arrow_fdw.c:816-840): with parsed arrays present the slot at
rb_index is copied and stat_isnull cleared, otherwise stat_min and
stat_max are zeroed and stat_isnull set. -/
def __applyArrowFieldStatsBinary (bstats : Option ParsedStats) (rb_index : Nat) :
    Int × Int × Bool :=
  match bstats with
  | some ps =>
    ((ps.slots.getD rb_index (false, 0, 0)).2.1,
     (ps.slots.getD rb_index (false, 0, 0)).2.2, false)
  | none => (0, 0, true)

theorem statsParseLoop_spec (n : Nat) : ∀ (ts1 ts2 : List (List Char)),
    ((statsParseLoop ts1 ts2 n).1.length ≤ ts1.length ∧
     (statsParseLoop ts1 ts2 n).1.length ≤ ts2.length ∧
     (statsParseLoop ts1 ts2 n).1.length ≤ n) ∧
    ((statsParseLoop ts1 ts2 n).1.length = ts1.length ∨
     (statsParseLoop ts1 ts2 n).1.length = ts2.length ∨
     (statsParseLoop ts1 ts2 n).1.length = n) ∧
    (statsParseLoop ts1 ts2 n).2.1 = ts1.drop (statsParseLoop ts1 ts2 n).1.length ∧
    (statsParseLoop ts1 ts2 n).2.2 = ts2.drop (statsParseLoop ts1 ts2 n).1.length := by
  induction n with
  | zero =>
    intro ts1 ts2
    simp [statsParseLoop]
  | succ k ih =>
    intro ts1 ts2
    cases ts1 with
    | nil => simp [statsParseLoop]
    | cons t1 r1 =>
      cases ts2 with
      | nil => simp [statsParseLoop]
      | cons t2 r2 =>
        have h := ih r1 r2
        have hstep : statsParseLoop (t1 :: r1) (t2 :: r2) (k + 1) =
            ((if (__atoi128 (__trim t2) (__atoi128 (__trim t1) false).2).2
              then (true, 0, 0)
              else (false, (__atoi128 (__trim t1) false).1,
                    (__atoi128 (__trim t2) (__atoi128 (__trim t1) false).2).1)) ::
              (statsParseLoop r1 r2 k).1,
             (statsParseLoop r1 r2 k).2) := rfl
        rw [hstep]
        simp only [List.length_cons, List.drop_succ_cons]
        exact ⟨⟨by omega, by omega, by omega⟩,
               by rcases h.2.1 with h1 | h1 | h1 <;> omega,
               h.2.2.1, h.2.2.2⟩

theorem parse_none_iff (ty : ArrowTypeNode) (nrooms : Nat)
    (mt xt : List Char) :
    __parseArrowFieldStatsBinary ty nrooms mt xt = none ↔
      (statsUnitsz ty = none ∨ (strtokTokens mt).length ≠ nrooms ∨
       (strtokTokens xt).length ≠ nrooms) := by
  unfold __parseArrowFieldStatsBinary
  cases hu : statsUnitsz ty with
  | none => simp
  | some u =>
    simp only [hu, reduceCtorEq, false_or]
    have h := statsParseLoop_spec nrooms (strtokTokens mt) (strtokTokens xt)
    by_cases hc : (statsParseLoop (strtokTokens mt) (strtokTokens xt) nrooms).2.1 = [] ∧
        (statsParseLoop (strtokTokens mt) (strtokTokens xt) nrooms).2.2 = [] ∧
        (statsParseLoop (strtokTokens mt) (strtokTokens xt) nrooms).1.length = nrooms
    · rw [if_pos hc]
      simp only [reduceCtorEq, false_iff]
      push_neg
      constructor
      · have h1 := hc.1
        rw [h.2.2.1, hc.2.2] at h1
        have := List.drop_eq_nil_iff.mp h1
        have hle := h.1.1
        rw [hc.2.2] at hle
        omega
      · have h2 := hc.2.1
        rw [h.2.2.2, hc.2.2] at h2
        have := List.drop_eq_nil_iff.mp h2
        have hle := h.1.2.1
        rw [hc.2.2] at hle
        omega
    · rw [if_neg hc]
      simp only [true_iff]
      by_contra hall
      push_neg at hall
      obtain ⟨h1, h2⟩ := hall
      apply hc
      have hlen : (statsParseLoop (strtokTokens mt) (strtokTokens xt) nrooms).1.length = nrooms := by
        have hb := h.1
        rcases h.2.1 with he | he | he <;> omega
      refine ⟨?_, ?_, hlen⟩
      · rw [h.2.2.1, hlen, ← h1]; simp
      · rw [h.2.2.2, hlen, ← h2]; simp

/-- C5: for a field carrying both min_values and max_values metadata, the
statistics hint is kept exactly when the field type supports statistics
and both token lists hold exactly one token per record batch; any failure
(unsupported type or token-count mismatch) yields no parsed statistics,
which makes every batch of the field receive stat_isnull true, and the
statistics are applied (stat_isnull false) only when both lists parsed
completely with exactly one slot per batch.  All of this is pure
computation: no error is ever raised on this path. -/
theorem C5_stats_hint_disable (ty : ArrowTypeNode) (nrooms : Nat)
    (meta : List (String × List Char)) (mt xt : List Char)
    (hmin : metaFindLast meta "min_values" = some mt)
    (hmax : metaFindLast meta "max_values" = some xt) :
    (__buildArrowFieldStatsBinary ty nrooms meta = none ↔
      (statsUnitsz ty = none ∨ (strtokTokens mt).length ≠ nrooms ∨
       (strtokTokens xt).length ≠ nrooms))
    ∧ (__buildArrowFieldStatsBinary ty nrooms meta = none →
        ∀ i, (__applyArrowFieldStatsBinary
                (__buildArrowFieldStatsBinary ty nrooms meta) i).2.2 = true)
    ∧ (∀ i, (__applyArrowFieldStatsBinary
              (__buildArrowFieldStatsBinary ty nrooms meta) i).2.2 = false →
        statsUnitsz ty ≠ none ∧ (strtokTokens mt).length = nrooms ∧
        (strtokTokens xt).length = nrooms) := by
  have hbuild : __buildArrowFieldStatsBinary ty nrooms meta =
      __parseArrowFieldStatsBinary ty nrooms mt xt := by
    unfold __buildArrowFieldStatsBinary
    rw [hmin, hmax]
  refine ⟨?_, ?_, ?_⟩
  · rw [hbuild]; exact parse_none_iff ty nrooms mt xt
  · intro hnone i
    rw [hnone]
    rfl
  · intro i happ
    by_cases hnone : __buildArrowFieldStatsBinary ty nrooms meta = none
    · rw [hnone] at happ
      simp [__applyArrowFieldStatsBinary] at happ
    · have := (not_iff_not.mpr (hbuild ▸ parse_none_iff ty nrooms mt xt)).mp
        (hbuild ▸ hnone)
      push_neg at this
      exact this

/-- Concrete metadata for the C5 witness: three record batches but only
two min/max tokens, so the hint is silently dropped. -/
def c5Meta : List (String × List Char) :=
  [("min_values", ['1', ',', '5']), ("max_values", ['4', ',', '8'])]

/-- Witness for C5: with a token count of two against three record
batches, batch zero of the field gets stat_isnull true. -/
theorem C5_stats_hint_disable_witness :
    (__applyArrowFieldStatsBinary
      (__buildArrowFieldStatsBinary (.IntT 32 true) 3 c5Meta) 0).2.2 = true :=
  (C5_stats_hint_disable (.IntT 32 true) 3 c5Meta ['1', ',', '5'] ['4', ',', '8']
      (by decide) (by decide)).2.1 (by decide) 0

/-! ### Arrow-to-host type binding (C6, C7) -/

def INT1OID : Nat := 606
def INT2OID : Nat := 21
def INT4OID : Nat := 23
def INT8OID : Nat := 20
def FLOAT2OID : Nat := 421
def FLOAT4OID : Nat := 700
def FLOAT8OID : Nat := 701
def BOOLOID : Nat := 16
def NUMERICOID : Nat := 1700
def DATEOID : Nat := 1082
def TIMEOID : Nat := 1083
def TIMESTAMPOID : Nat := 1114
def TIMESTAMPTZOID : Nat := 1184
def INTERVALOID : Nat := 1186
def MACADDROID : Nat := 829
def INETOID : Nat := 869
def TEXTOID : Nat := 25
def BYTEAOID : Nat := 17
def VARHDRSZ : Int := 4
def BLCKSZ : Int := 8192

/-- Result of binding one scalar Arrow field to a host column: the host
type id and modifier, the populated ArrowTypeOptions, and whether the
field consumes an extra (variable-length) buffer.  INT1OID and FLOAT2OID
stand for the oids the source resolves by name at runtime. -/
structure ScalarBind where
  atttypid : Nat
  atttypmod : Int
  attopts : ArrowTypeOptions
  has_extra : Bool
deriving DecidableEq

/-- Shallow embedding of the scalar arms of the type-binding switch of
__buildRecordBatchFieldState (arrow_fdw.c:1117-1332).  The List,
LargeList and Struct arms recurse into children and are handled outside
this function (none); every other arm yields the bound host type, the
type options and the extra-buffer flag, or the elog ERROR for an
unsupported sub-selector.  The pg_type hint computed at arrow_fdw.c:1105
is consulted only by the FixedSizeBinary arm (macaddr and inet); all
other scalar arms ignore it.  The Date arm gives unit size 4 for both
Day and MilliSecond, copying sizeof int32 at arrow_fdw.c:1207. -/
def __buildRecordBatchFieldState_scalar (t : ArrowTypeNode) (hint_oid : Option Nat) :
    Option (Except FdwError ScalarBind) :=
  match t with
  | .IntT bw sg =>
    some (
      if bw = 8 then
        .ok { atttypid := INT1OID, atttypmod := -1,
              attopts := { tag := .Int, unitsz := 1,
                           integer_bitWidth := bw, integer_is_signed := sg },
              has_extra := false }
      else if bw = 16 then
        .ok { atttypid := INT2OID, atttypmod := -1,
              attopts := { tag := .Int, unitsz := 2,
                           integer_bitWidth := bw, integer_is_signed := sg },
              has_extra := false }
      else if bw = 32 then
        .ok { atttypid := INT4OID, atttypmod := -1,
              attopts := { tag := .Int, unitsz := 4,
                           integer_bitWidth := bw, integer_is_signed := sg },
              has_extra := false }
      else if bw = 64 then
        .ok { atttypid := INT8OID, atttypmod := -1,
              attopts := { tag := .Int, unitsz := 8,
                           integer_bitWidth := bw, integer_is_signed := sg },
              has_extra := false }
      else .error (.UnsupportedType "Arrow::Int bitWidth is not supported"))
  | .FloatingPoint p =>
    some (
      if p = ArrowPrecision__Half then
        .ok { atttypid := FLOAT2OID, atttypmod := -1,
              attopts := { tag := .FloatingPoint, unitsz := 2,
                           floating_point_precision := p },
              has_extra := false }
      else if p = ArrowPrecision__Single then
        .ok { atttypid := FLOAT4OID, atttypmod := -1,
              attopts := { tag := .FloatingPoint, unitsz := 4,
                           floating_point_precision := p },
              has_extra := false }
      else if p = ArrowPrecision__Double then
        .ok { atttypid := FLOAT8OID, atttypmod := -1,
              attopts := { tag := .FloatingPoint, unitsz := 8,
                           floating_point_precision := p },
              has_extra := false }
      else .error (.UnsupportedType "Arrow::FloatingPoint unknown precision"))
  | .BoolT =>
    some (.ok { atttypid := BOOLOID, atttypmod := -1,
                attopts := { tag := .Bool, unitsz := -1 },
                has_extra := false })
  | .Decimal p s bw =>
    some (
      if bw != 128 then .error (.UnsupportedType "Arrow::Decimal bitWidth is not supported")
      else
        .ok { atttypid := NUMERICOID, atttypmod := -1,
              attopts := { tag := .Decimal, unitsz := 16,
                           decimal_precision := p, decimal_scale := s,
                           decimal_bitWidth := bw },
              has_extra := false })
  | .Date u =>
    some (
      if u = ArrowDateUnit__Day then
        .ok { atttypid := DATEOID, atttypmod := -1,
              attopts := { tag := .Date, unitsz := 4, date_unit := u },
              has_extra := false }
      else if u = ArrowDateUnit__MilliSecond then
        .ok { atttypid := DATEOID, atttypmod := -1,
              attopts := { tag := .Date, unitsz := 4, date_unit := u },
              has_extra := false }
      else .error (.UnsupportedType "Arrow::Date unknown unit"))
  | .Time u =>
    some (
      if u = ArrowTimeUnit__Second ∨ u = ArrowTimeUnit__MilliSecond then
        .ok { atttypid := TIMEOID, atttypmod := -1,
              attopts := { tag := .Time, unitsz := 4, time_unit := u },
              has_extra := false }
      else if u = ArrowTimeUnit__MicroSecond ∨ u = ArrowTimeUnit__NanoSecond then
        .ok { atttypid := TIMEOID, atttypmod := -1,
              attopts := { tag := .Time, unitsz := 8, time_unit := u },
              has_extra := false }
      else .error (.UnsupportedType "unknown Time::unit"))
  | .Timestamp u tz =>
    some (
      if u = ArrowTimeUnit__Second ∨ u = ArrowTimeUnit__MilliSecond ∨
         u = ArrowTimeUnit__MicroSecond ∨ u = ArrowTimeUnit__NanoSecond then
        .ok { atttypid := if tz then TIMESTAMPTZOID else TIMESTAMPOID,
              atttypmod := -1,
              attopts := { tag := .Timestamp, unitsz := 8, timestamp_unit := u },
              has_extra := false }
      else .error (.UnsupportedType "unknown Timestamp::unit"))
  | .Interval u =>
    some (
      if u = ArrowIntervalUnit__Year_Month then
        .ok { atttypid := INTERVALOID, atttypmod := -1,
              attopts := { tag := .Interval, unitsz := 4 },
              has_extra := false }
      else if u = ArrowIntervalUnit__Day_Time then
        .ok { atttypid := INTERVALOID, atttypmod := -1,
              attopts := { tag := .Interval, unitsz := 8 },
              has_extra := false }
      else .error (.UnsupportedType "unknown Interval::unit"))
  | .FixedSizeBinary w =>
    some (
      if w ≤ 0 ∨ w > BLCKSZ then
        .error (.UnsupportedType "FixedSizeBinary byteWidth is not supported")
      else if hint_oid = some MACADDROID ∧ w = 6 then
        .ok { atttypid := MACADDROID, atttypmod := -1,
              attopts := { tag := .FixedSizeBinary, unitsz := w,
                           fixed_size_binary_byteWidth := w },
              has_extra := false }
      else if hint_oid = some INETOID ∧ (w = 4 ∨ w = 16) then
        .ok { atttypid := INETOID, atttypmod := -1,
              attopts := { tag := .FixedSizeBinary, unitsz := w,
                           fixed_size_binary_byteWidth := w },
              has_extra := false }
      else
        .ok { atttypid := BYTEAOID, atttypmod := VARHDRSZ + w,
              attopts := { tag := .FixedSizeBinary, unitsz := w,
                           fixed_size_binary_byteWidth := w },
              has_extra := false })
  | .Utf8 =>
    some (.ok { atttypid := TEXTOID, atttypmod := -1,
                attopts := { tag := .Utf8, unitsz := 4 }, has_extra := true })
  | .LargeUtf8 =>
    some (.ok { atttypid := TEXTOID, atttypmod := -1,
                attopts := { tag := .LargeUtf8, unitsz := 8 }, has_extra := true })
  | .Binary =>
    some (.ok { atttypid := BYTEAOID, atttypmod := -1,
                attopts := { tag := .Binary, unitsz := 4 }, has_extra := true })
  | .LargeBinary =>
    some (.ok { atttypid := BYTEAOID, atttypmod := -1,
                attopts := { tag := .LargeBinary, unitsz := 8 }, has_extra := true })
  | .ListT => none
  | .LargeListT => none
  | .Struct => none

def scalarBindTypid (r : Option (Except FdwError ScalarBind)) : Option Nat :=
  match r with
  | some (.ok b) => some b.atttypid
  | _ => none

def scalarBindUnitsz (r : Option (Except FdwError ScalarBind)) : Option Int :=
  match r with
  | some (.ok b) => some b.attopts.unitsz
  | _ => none

def scalarBindIsError (r : Option (Except FdwError ScalarBind)) : Bool :=
  match r with
  | some (.error _) => true
  | _ => false

/-- C6 (code bug): the Date arm of the binder maps both Day and
MilliSecond to the host date type with unit size 4 (arrow_fdw.c:1204 and
:1207 both use sizeof int32), while the claim and the statistics parser
in the same file (arrow_fdw.c:641-643) give MilliSecond dates 8 bytes;
every other Date unit is rejected as unsupported. -/
theorem C6_date_unit_size :
    scalarBindUnitsz (__buildRecordBatchFieldState_scalar
        (.Date ArrowDateUnit__Day) none) = some 4
    ∧ scalarBindUnitsz (__buildRecordBatchFieldState_scalar
        (.Date ArrowDateUnit__MilliSecond) none) = some 4
    ∧ statsUnitsz (.Date ArrowDateUnit__MilliSecond) = some 8
    ∧ scalarBindTypid (__buildRecordBatchFieldState_scalar
        (.Date ArrowDateUnit__Day) none) = some DATEOID
    ∧ scalarBindTypid (__buildRecordBatchFieldState_scalar
        (.Date ArrowDateUnit__MilliSecond) none) = some DATEOID
    ∧ (∀ u : Nat, scalarBindIsError (__buildRecordBatchFieldState_scalar (.Date u) none) =
        (!(u == ArrowDateUnit__Day) && !(u == ArrowDateUnit__MilliSecond))) := by
  refine ⟨rfl, rfl, rfl, rfl, rfl, ?_⟩
  intro u
  by_cases h0 : u = ArrowDateUnit__Day
  · subst h0; rfl
  · by_cases h1 : u = ArrowDateUnit__MilliSecond
    · subst h1; rfl
    · have hbind : __buildRecordBatchFieldState_scalar (.Date u) none =
          some (.error (.UnsupportedType "Arrow::Date unknown unit")) := by
        unfold __buildRecordBatchFieldState_scalar
        dsimp only
        rw [if_neg h0, if_neg h1]
      rw [hbind, beq_eq_false_iff_ne.mpr h0, beq_eq_false_iff_ne.mpr h1]
      rfl

/-! ### Composite (Struct) host type matching (C7) -/

/-- lookup_rowtype_tupdesc_noerror modelled over an explicit catalog of
composite types: the attribute type list of the composite with the given
oid, if any. -/
def lookupCompositeTupdesc (catalog : List (Nat × List Nat)) (oid : Nat) :
    Option (List Nat) :=
  (catalog.find? (fun e => e.1 == oid)).map (fun e => e.2)

/-- Attribute comparison of __assignRecordBatchFieldStateComposite
(arrow_fdw.c:1074-1087): the attribute count must equal the child count
and every attribute type must equal the corresponding child host type. -/
def compositeTypeMatches (childTypes atts : List Nat) : Bool :=
  atts.length == childTypes.length && atts == childTypes

/-- Catalog scan of __assignRecordBatchFieldStateComposite after the hint
was tried: the scan keys select composite entries with the matching
attribute count whose oid differs from the hint (arrow_fdw.c:1033-1046),
and the first full match wins. -/
def compositeScanRest (catalog : List (Nat × List Nat)) (hint_oid : Option Nat)
    (childTypes : List Nat) : Except FdwError Nat :=
  match (catalog.filter (fun e =>
          (match hint_oid with
           | some h => e.1 != h
           | none => true) &&
          e.2.length == childTypes.length)).find?
        (fun e => compositeTypeMatches childTypes e.2) with
  | some e => .ok e.1
  | none => .error .NoCompatibleComposite

/-- Shallow embedding of __assignRecordBatchFieldStateComposite
(arrow_fdw.c:1024-1096): the pg_type hint oid is tried first (its row
type looked up directly); when it does not match, the catalog is scanned
in order excluding the hint oid; no match at all is the elog at :1095.
The ACL check is taken as granted for every catalog entry. -/
def __assignRecordBatchFieldStateComposite (catalog : List (Nat × List Nat))
    (hint_oid : Option Nat) (childTypes : List Nat) : Except FdwError Nat :=
  match hint_oid with
  | some h =>
    (match lookupCompositeTupdesc catalog h with
     | some atts =>
       if compositeTypeMatches childTypes atts then .ok h
       else compositeScanRest catalog (some h) childTypes
     | none => compositeScanRest catalog (some h) childTypes)
  | none => compositeScanRest catalog none childTypes

/-- A user-defined host type present in the catalog, distinct from the
built-in int4. -/
def customIntTypeOid : Nat := 77777

/-- Byte length and signedness of some host integer types, including the
user-defined customIntTypeOid, standing for the host catalog. -/
def hostIntTypeByteLen : List (Nat × Nat × Bool) :=
  [(INT1OID, 1, true), (INT2OID, 2, true), (INT4OID, 4, true), (INT8OID, 8, true),
   (customIntTypeOid, 4, true)]

/-- The claim premise in the spec wording: the hinted host type exists
and is compatible with the Arrow field, that is it has the same byte
length and signedness (stated here for integer fields, the case the
counterexample uses). -/
def claimHintCompatible (t : ArrowTypeNode) (oid : Nat) : Bool :=
  match t with
  | .IntT bw sg =>
    (match hostIntTypeByteLen.find? (fun e => e.1 == oid) with
     | some e => e.2.1 * 8 == bw && e.2.2 == sg
     | none => false)
  | _ => false

/-- C7 counterexample: an Int32 field whose pg_type hint names an
existing, length-and-signedness-compatible host type is nevertheless
bound to the default int4, because __buildRecordBatchFieldState consults
the hint only in the FixedSizeBinary and Struct arms; the lookup result
is identical with and without the hint. -/
theorem C7_counterexample :
    claimHintCompatible (.IntT 32 true) customIntTypeOid = true
    ∧ __buildRecordBatchFieldState_scalar (.IntT 32 true) (some customIntTypeOid) =
        __buildRecordBatchFieldState_scalar (.IntT 32 true) none
    ∧ scalarBindTypid (__buildRecordBatchFieldState_scalar (.IntT 32 true)
        (some customIntTypeOid)) = some INT4OID
    ∧ INT4OID ≠ customIntTypeOid := by
  exact ⟨by decide, rfl, rfl, by decide⟩

def isFixedSizeBinaryType : ArrowTypeNode → Bool
  | .FixedSizeBinary _ => true
  | _ => false

/-- C7 as amended: the pg_type hint is honored only where the source
consults it.  Every scalar arm other than FixedSizeBinary produces the
same binding with or without a hint; a FixedSizeBinary field of width 6
with a macaddr hint binds to macaddr, widths 4 and 16 with an inet hint
bind to inet; and the Struct composite matcher tries the hinted
composite first, so a hint whose attribute types equal the child host
types is chosen. -/
theorem C7_hint_scope (t : ArrowTypeNode) (hint_oid : Option Nat)
    (catalog : List (Nat × List Nat)) (childTypes : List Nat) (h : Nat)
    (hnotfsb : isFixedSizeBinaryType t = false)
    (hcat : lookupCompositeTupdesc catalog h = some childTypes) :
    __buildRecordBatchFieldState_scalar t hint_oid =
      __buildRecordBatchFieldState_scalar t none
    ∧ scalarBindTypid (__buildRecordBatchFieldState_scalar
        (.FixedSizeBinary 6) (some MACADDROID)) = some MACADDROID
    ∧ (∀ w : Int, w = 4 ∨ w = 16 → scalarBindTypid (__buildRecordBatchFieldState_scalar
        (.FixedSizeBinary w) (some INETOID)) = some INETOID)
    ∧ __assignRecordBatchFieldStateComposite catalog (some h) childTypes = .ok h := by
  refine ⟨?_, by decide, ?_, ?_⟩
  · cases t <;> first
      | rfl
      | (simp [isFixedSizeBinaryType] at hnotfsb)
  · intro w hw
    rcases hw with rfl | rfl <;> decide
  · unfold __assignRecordBatchFieldStateComposite
    dsimp only
    rw [hcat]
    dsimp only
    rw [if_pos (show compositeTypeMatches childTypes childTypes = true by
      simp [compositeTypeMatches])]

/-- Witness for the amended C7: an Int32 field ignores the hint, and a
one-attribute composite hint matching the child types is selected. -/
theorem C7_hint_scope_witness :
    __buildRecordBatchFieldState_scalar (.IntT 32 true) (some 5) =
      __buildRecordBatchFieldState_scalar (.IntT 32 true) none
    ∧ __assignRecordBatchFieldStateComposite [(42, [23]), (43, [23])] (some 43) [23] =
        .ok 43 :=
  ⟨(C7_hint_scope (.IntT 32 true) (some 5) [(42, [23]), (43, [23])] [23] 43
      (by decide) (by decide)).1,
   (C7_hint_scope (.IntT 32 true) (some 5) [(42, [23]), (43, [23])] [23] 43
      (by decide) (by decide)).2.2.2⟩

/-! ### Building ArrowFileState from a raw file (C8) -/

/-- ArrowBlock descriptor of one record batch in the footer. -/
structure ArrowBlockD where
  offset : Int
  metaDataLength : Int
  bodyLength : Int
deriving DecidableEq

/-- One parsed record batch of an ArrowFileInfo, reduced to the scalar
data __buildRecordBatchStateOne copies (the per-field walk is the subject
of the C3 and C4 sections). -/
structure RecordBatchMeta where
  block : ArrowBlockD
  length : Int
deriving DecidableEq

/-- Parsed Arrow file as produced by readArrowFileDesc: the stat
snapshot, whether dictionary batches are present, and the record-batch
descriptors. -/
structure ArrowFileInfo where
  stat_buf : FileStat
  hasDictionaries : Bool
  recordBatches : List RecordBatchMeta
deriving DecidableEq

/-- Scalar part of one RecordBatchState (arrow_fdw.c:43-52). -/
structure RecordBatchStateM where
  rb_index : Nat
  rb_offset : Int
  rb_length : Int
  rb_nitems : Int
deriving DecidableEq

/-- ArrowFileState at the granularity C8 needs: the stat snapshot and the
ordered record-batch list. -/
structure ArrowFileStateM where
  stat_buf : FileStat
  rb_list : List RecordBatchStateM
deriving DecidableEq

/-- Scalar assignments of __buildRecordBatchStateOne
(arrow_fdw.c:1406-1410). -/
def __buildRecordBatchStateOne_scalars (i : Nat) (rb : RecordBatchMeta) :
    RecordBatchStateM :=
  { rb_index := i,
    rb_offset := rb.block.offset + rb.block.metaDataLength,
    rb_length := rb.block.bodyLength,
    rb_nitems := rb.length }

/-- Shallow embedding of __buildArrowFileStateByFile
(arrow_fdw.c:1430-1481) at the file level.  The none input stands for
open(2) failing with ENOENT (a debug note and a NULL result).  Dictionary
batches are the elog at :1450.  A file that parses but holds no record
batch returns NULL after a debug note (arrow_fdw.c:1454-1458); otherwise
one RecordBatchState is built per batch, in order. -/
def __buildArrowFileStateByFile (file : Option ArrowFileInfo) :
    Except FdwError (Option ArrowFileStateM) :=
  match file with
  | none => .ok none
  | some info =>
    if info.hasDictionaries then
      .error (.UnsupportedFeature "DictionaryBatch is not supported")
    else if info.recordBatches.isEmpty then
      .ok none
    else
      .ok (some { stat_buf := info.stat_buf,
                  rb_list := info.recordBatches.enum.map
                    (fun p => __buildRecordBatchStateOne_scalars p.1 p.2) })

/-- The caller loop of ArrowGetForeignRelSize (arrow_fdw.c:1825-1863): a
NULL ArrowFileState makes the file silently skipped (continue), every
other file contributes its state in order. -/
def collectFileStates : List (Option ArrowFileInfo) →
    Except FdwError (List ArrowFileStateM)
  | [] => .ok []
  | f :: fs =>
    match __buildArrowFileStateByFile f with
    | .error e => .error e
    | .ok none => collectFileStates fs
    | .ok (some st) =>
      match collectFileStates fs with
      | .error e => .error e
      | .ok rest => .ok (st :: rest)

/-- A well-formed parsed file with zero record batches. -/
def c8EmptyInfo : ArrowFileInfo :=
  { stat_buf := { st_dev := 1, st_ino := 2, mtimeSec := 0, mtimeNsec := 0 },
    hasDictionaries := false, recordBatches := [] }

/-- C8 counterexample: a successfully parsed zero-batch file does not
yield an ArrowFileState with an empty batch list; the builder returns
NULL (ok none), so no ArrowFileState exists at all. -/
theorem C8_counterexample :
    __buildArrowFileStateByFile (some c8EmptyInfo) = .ok none
    ∧ ¬ ∃ st, __buildArrowFileStateByFile (some c8EmptyInfo) = .ok (some st) ∧
        st.rb_list = [] := by
  refine ⟨rfl, ?_⟩
  rintro ⟨st, hst, _⟩
  rw [show __buildArrowFileStateByFile (some c8EmptyInfo) = .ok none from rfl] at hst
  simp at hst

/-- C8 as amended: a parsed file without dictionary batches and with zero
record batches yields no ArrowFileState (the builder returns NULL after a
debug note), and the scan-planning loop skips it silently: the collected
file states and the absence of error are exactly those of the same file
list without that file. -/
theorem C8_zero_batch_file_skipped (info : ArrowFileInfo)
    (files1 files2 : List (Option ArrowFileInfo))
    (hnd : info.hasDictionaries = false)
    (hrb : info.recordBatches = []) :
    __buildArrowFileStateByFile (some info) = .ok none
    ∧ collectFileStates (files1 ++ some info :: files2) =
        collectFileStates (files1 ++ files2) := by
  have hbuild : __buildArrowFileStateByFile (some info) = .ok none := by
    unfold __buildArrowFileStateByFile
    dsimp only
    rw [if_neg (by rw [hnd]; exact Bool.false_ne_true)]
    rw [if_pos (by rw [hrb]; rfl)]
  have hcons : ∀ (f : Option ArrowFileInfo) (fs : List (Option ArrowFileInfo)),
      collectFileStates (f :: fs) =
        (match __buildArrowFileStateByFile f with
         | .error e => .error e
         | .ok none => collectFileStates fs
         | .ok (some st) =>
           match collectFileStates fs with
           | .error e => .error e
           | .ok rest => .ok (st :: rest)) := fun f fs => rfl
  refine ⟨hbuild, ?_⟩
  induction files1 with
  | nil =>
    simp only [List.nil_append]
    rw [hcons, hbuild]
  | cons f fs ih =>
    simp only [List.cons_append]
    rw [hcons, hcons, ih]

/-- Witness for the amended C8: a file list holding only the zero-batch
file collects the same (empty, error-free) result as the empty list. -/
theorem C8_zero_batch_file_skipped_witness :
    collectFileStates [some c8EmptyInfo] = collectFileStates [] :=
  (C8_zero_batch_file_skipped c8EmptyInfo [] [] rfl rfl).2

/-! ### Scan-option file list extraction (C9, C10)

The files option tokenizer at arrow_fdw.c:1717 calls
strtok_r(temp, ",", &saveptr) with the ORIGINAL buffer pointer on every
iteration instead of NULL, so tokenization restarts from the head of the
buffer each time: after the first comma is overwritten with NUL the
effective C string is the first token forever, and the loop never
terminates for any value holding at least one token.  The embedding keeps
the loop behind a fuel parameter; none means the fuel ran out with the
loop still running. -/

/-- The filesystem environment of the resolver: which paths access(2)
grants read on, and the directory entries in filesystem-enumeration
order. -/
structure FsEnv where
  readable : List Char → Bool
  dirEntries : List (List Char)

/-- One strtok_r call that restarts at the original buffer, as the files
loop does (arrow_fdw.c:1717): skip leading commas; an empty remainder
ends the loop (none); otherwise the token runs to the next comma, and the
returned buffer is the C string after the mutation, the leading commas
followed by the token (the terminating comma, when present, became NUL). -/
def strtokRestart (buf : List Char) : Option (List Char × List Char) :=
  let rest := buf.dropWhile (fun c => c = ',')
  if rest = [] then none
  else
    let tok := rest.takeWhile (fun c => c ≠ ',')
    some (tok, buf.takeWhile (fun c => c = ',') ++ tok)

/-- The files-option loop (arrow_fdw.c:1717-1724) behind fuel: each
iteration re-tokenizes from the buffer head, trims the token, errors on
an unreadable path and otherwise appends the token to the list. -/
def filesOptionLoop (readable : List Char → Bool) :
    Nat → List Char → List (List Char) → Option (Except FdwError (List (List Char)))
  | 0, _, _ => none
  | Nat.succ fuel, buf, acc =>
    match strtokRestart buf with
    | none => some (.ok acc)
    | some (tok0, buf1) =>
      let tok := __trim tok0
      if readable tok then filesOptionLoop readable fuel buf1 (acc ++ [tok])
      else some (.error (.OptionError "arrow_fdw: unable to access file"))

/-- Scan-level options of the Arrow FDW, with the values already
unwrapped from their DefElem nodes. -/
inductive ArrowOption where
  | file (path : List Char)
  | files (value : List Char)
  | dir (path : List Char)
  | suffix (value : List Char)
  | parallel_workers (n : Int)
  | unknown (name : String)
deriving DecidableEq

/-- Mutable state of the option loop of arrowFdwExtractFilesList
(arrow_fdw.c:1692-1696). -/
structure ExtractState where
  filesList : List (List Char)
  dir_path : Option (List Char)
  dir_suffix : Option (List Char)
  parallel_nworkers : Int
deriving DecidableEq

/-- The option loop of arrowFdwExtractFilesList (arrow_fdw.c:1698-1743):
a literal file must be readable, the files value goes through the
restarting tokenizer, dir and suffix overwrite the pending path and
suffix, parallel_workers may appear at most once, and an unknown option
is an error. -/
def processOptions (env : FsEnv) (fuel : Nat) :
    List ArrowOption → ExtractState → Option (Except FdwError ExtractState)
  | [], st => some (.ok st)
  | opt :: rest, st =>
    match opt with
    | .file path =>
      if env.readable path then
        processOptions env fuel rest { st with filesList := st.filesList ++ [path] }
      else some (.error (.OptionError "arrow_fdw: unable to access file"))
    | .files value =>
      (match filesOptionLoop env.readable fuel value st.filesList with
       | none => none
       | some (.error e) => some (.error e)
       | some (.ok fl) => processOptions env fuel rest { st with filesList := fl })
    | .dir path => processOptions env fuel rest { st with dir_path := some path }
    | .suffix value => processOptions env fuel rest { st with dir_suffix := some value }
    | .parallel_workers n =>
      if 0 ≤ st.parallel_nworkers then
        some (.error (.OptionError "parallel_workers appeared twice"))
      else processOptions env fuel rest { st with parallel_nworkers := n }
    | .unknown _ => some (.error (.OptionError "arrow: unknown option"))

/-- The segment of a directory entry after its final dot (strrchr at
arrow_fdw.c:1761): none when the name holds no dot. -/
def finalDotSegment (name : List Char) : Option (List Char) :=
  if '.' ∈ name then some ((name.reverse.takeWhile (fun c => c ≠ '.')).reverse)
  else none

/-- The directory scan of arrowFdwExtractFilesList (arrow_fdw.c:1747-1775):
dot and dot-dot entries are skipped; with a suffix only entries whose
final-dot segment equals it are kept; an unreadable entry is skipped with
a debug note; survivors are appended as dir slash name in enumeration
order. -/
def dirScanFiles (env : FsEnv) (dir_path : List Char)
    (dir_suffix : Option (List Char)) : List (List Char) :=
  env.dirEntries.filterMap (fun name =>
    if name = ['.'] ∨ name = ['.', '.'] then none
    else
      let keep : Bool :=
        match dir_suffix with
        | some sfx =>
          (match finalDotSegment name with
           | some seg => seg == sfx
           | none => false)
        | none => true
      if keep then
        (let full := dir_path ++ '/' :: name
         if env.readable full then some full else none)
      else none)

/-- Shallow embedding of arrowFdwExtractFilesList (arrow_fdw.c:1687-1780):
process the options in order, reject a suffix without a dir
(arrow_fdw.c:1744-1745) before any directory access, then append the
directory scan results after the literal paths. -/
def arrowFdwExtractFilesList (env : FsEnv) (fuel : Nat) (opts : List ArrowOption) :
    Option (Except FdwError (List (List Char) × Int)) :=
  match processOptions env fuel opts
      { filesList := [], dir_path := none, dir_suffix := none,
        parallel_nworkers := -1 } with
  | none => none
  | some (.error e) => some (.error e)
  | some (.ok st) =>
    if st.dir_suffix.isSome ∧ st.dir_path.isNone then
      some (.error (.OptionError "arrow: cannot use suffix option without dir"))
    else
      match st.dir_path with
      | some dp =>
        some (.ok (st.filesList ++ dirScanFiles env dp st.dir_suffix,
                   st.parallel_nworkers))
      | none => some (.ok (st.filesList, st.parallel_nworkers))

theorem dropWhile_append_all {p : Char → Bool} {l1 l2 : List Char}
    (h : ∀ c ∈ l1, p c = true) :
    (l1 ++ l2).dropWhile p = l2.dropWhile p := by
  induction l1 with
  | nil => rfl
  | cons c cs ih =>
    simp only [List.cons_append, List.dropWhile_cons,
      h c (List.mem_cons_self _ _), if_true]
    exact ih (fun d hd => h d (List.mem_cons_of_mem _ hd))

theorem takeWhile_append_all {p : Char → Bool} {l1 l2 : List Char}
    (h : ∀ c ∈ l1, p c = true) :
    (l1 ++ l2).takeWhile p = l1 ++ l2.takeWhile p := by
  induction l1 with
  | nil => rfl
  | cons c cs ih =>
    simp only [List.cons_append, List.takeWhile_cons,
      h c (List.mem_cons_self _ _), if_true]
    rw [ih (fun d hd => h d (List.mem_cons_of_mem _ hd))]

theorem dropWhile_head_false {p : Char → Bool} {l : List Char} {c : Char}
    {cs : List Char} (h : l.dropWhile p = c :: cs) : p c = false := by
  induction l with
  | nil => simp at h
  | cons d ds ih =>
    rw [List.dropWhile_cons] at h
    by_cases hd : p d = true
    · rw [if_pos hd] at h; exact ih h
    · rw [if_neg hd] at h
      cases h
      exact Bool.eq_false_iff.mpr hd

theorem takeWhile_all {p : Char → Bool} {l : List Char}
    (h : ∀ c ∈ l, p c = true) : l.takeWhile p = l := by
  induction l with
  | nil => rfl
  | cons c cs ih =>
    rw [List.takeWhile_cons, if_pos (h c (List.mem_cons_self _ _)),
      ih (fun d hd => h d (List.mem_cons_of_mem _ hd))]

/-- The buffer returned by the restarting strtok_r is a fixed point: the
next call returns the same token and the same buffer, and so does every
later one. -/
theorem strtokRestart_fixpoint {buf tok buf1 : List Char}
    (h : strtokRestart buf = some (tok, buf1)) :
    strtokRestart buf1 = some (tok, buf1) := by
  unfold strtokRestart at h
  by_cases hrest : buf.dropWhile (fun c => decide (c = ',')) = []
  · rw [if_pos hrest] at h; simp at h
  · rw [if_neg hrest] at h
    simp only [Option.some.injEq, Prod.mk.injEq] at h
    obtain ⟨htok, hbuf1⟩ := h
    obtain ⟨c, cs, hcons⟩ : ∃ c cs,
        buf.dropWhile (fun c => decide (c = ',')) = c :: cs := by
      cases hd : buf.dropWhile (fun c => decide (c = ',')) with
      | nil => exact absurd hd hrest
      | cons c cs => exact ⟨c, cs, rfl⟩
    have hcfalse : decide (c = ',') = false := dropWhile_head_false hcons
    have hpNc : decide (c ≠ ',') = true := by
      simp only [decide_eq_false_iff_not] at hcfalse
      simp [hcfalse]
    rw [hcons] at htok hbuf1
    rw [List.takeWhile_cons, if_pos hpNc] at htok hbuf1
    have hleadall : ∀ d ∈ List.takeWhile (fun c => decide (c = ',')) buf,
        (fun c : Char => decide (c = ',')) d = true := fun d hd => by
      have h2 := List.mem_takeWhile_imp hd
      exact h2
    have hrestall : ∀ d ∈ List.takeWhile (fun c => decide (c ≠ ',')) cs,
        (fun c : Char => decide (c ≠ ',')) d = true := fun d hd => by
      have h2 := List.mem_takeWhile_imp hd
      exact h2
    subst hbuf1
    have hnd : ¬(decide (c = ',') = true) := by simp [hcfalse]
    unfold strtokRestart
    rw [dropWhile_append_all hleadall, List.dropWhile_cons, if_neg hnd]
    rw [if_neg (by simp)]
    rw [List.takeWhile_cons, if_pos hpNc, takeWhile_all hrestall]
    rw [takeWhile_append_all hleadall, List.takeWhile_cons, if_neg hnd]
    rw [List.append_nil, ← htok]

/-- Once the loop reaches a fixed-point buffer whose trimmed token is
readable, it consumes every remaining unit of fuel without finishing. -/
theorem filesOptionLoop_diverges (readable : List Char → Bool)
    {tok buf1 : List Char}
    (hfix : strtokRestart buf1 = some (tok, buf1))
    (hread : readable (__trim tok) = true) :
    ∀ (fuel : Nat) (acc : List (List Char)),
      filesOptionLoop readable fuel buf1 acc = none := by
  intro fuel
  induction fuel with
  | zero => intro acc; rfl
  | succ k ih =>
    intro acc
    unfold filesOptionLoop
    rw [hfix]
    dsimp only
    rw [if_pos hread]
    exact ih _

/-- The files loop never terminates from any buffer holding at least one
readable token: the first restarting call reaches the fixed point. -/
theorem filesOptionLoop_diverges_from (readable : List Char → Bool)
    {buf tok buf1 : List Char}
    (hstep : strtokRestart buf = some (tok, buf1))
    (hread : readable (__trim tok) = true) :
    ∀ (fuel : Nat) (acc : List (List Char)),
      filesOptionLoop readable fuel buf acc = none := by
  intro fuel acc
  cases fuel with
  | zero => rfl
  | succ k =>
    unfold filesOptionLoop
    rw [hstep]
    dsimp only
    rw [if_pos hread]
    exact filesOptionLoop_diverges readable (strtokRestart_fixpoint hstep) hread k _

/-- Filesystem environment in which every path is readable and the
directory is empty. -/
def c9AllReadable : FsEnv := { readable := fun _ => true, dirEntries := [] }

/-- C9 (code bug): resolving an option list holding files with value a,b
never completes, whatever fuel (iteration budget) the loop is given,
because strtok_r is restarted with the original buffer pointer on every
iteration (arrow_fdw.c:1717) and keeps re-reading the first token; the
claimed file list would be the tokens of a correctly continued
tokenization, a then b, shown alongside. -/
theorem C9_files_list_order :
    (∀ fuel : Nat, arrowFdwExtractFilesList c9AllReadable fuel
        [ArrowOption.files ['a', ',', 'b']] = none)
    ∧ strtokTokens ['a', ',', 'b'] = [['a'], ['b']] := by
  constructor
  · intro fuel
    have hloop : filesOptionLoop c9AllReadable.readable fuel ['a', ',', 'b'] [] = none :=
      filesOptionLoop_diverges_from _
        (show strtokRestart ['a', ',', 'b'] = some (['a'], ['a']) from rfl)
        rfl fuel []
    have hproc : processOptions c9AllReadable fuel [ArrowOption.files ['a', ',', 'b']]
        { filesList := [], dir_path := none, dir_suffix := none,
          parallel_nworkers := -1 } = none := by
      unfold processOptions
      dsimp only
      rw [hloop]
    unfold arrowFdwExtractFilesList
    rw [hproc]
  · rfl

/-- C10: the suffix-without-dir check (arrow_fdw.c:1744-1745) fires right
after the option loop and before any directory access, for every
filesystem environment (the directory contents never matter) and with no
file list produced; but the claim quantified over every option set fails
on the code: a set that also carries a files option never reaches the
check, because the files tokenizer loops forever (arrow_fdw.c:1717), so
no error is ever raised there. -/
theorem C10_suffix_requires_dir :
    (∀ (env : FsEnv) (fuel : Nat) (sfx : List Char),
      arrowFdwExtractFilesList env fuel [ArrowOption.suffix sfx] =
        some (.error (.OptionError "arrow: cannot use suffix option without dir")))
    ∧ (∀ fuel : Nat, arrowFdwExtractFilesList c9AllReadable fuel
        [ArrowOption.files ['a'], ArrowOption.suffix ['x']] = none) := by
  constructor
  · intro env fuel sfx
    rfl
  · intro fuel
    have hloop : filesOptionLoop c9AllReadable.readable fuel ['a'] [] = none :=
      filesOptionLoop_diverges_from _
        (show strtokRestart ['a'] = some (['a'], ['a']) from rfl)
        rfl fuel []
    have hproc : processOptions c9AllReadable fuel
        [ArrowOption.files ['a'], ArrowOption.suffix ['x']]
        { filesList := [], dir_path := none, dir_suffix := none,
          parallel_nworkers := -1 } = none := by
      unfold processOptions
      dsimp only
      rw [hloop]
    unfold arrowFdwExtractFilesList
    rw [hproc]

end ArrowFdw
